import Mathlib

/-!
Verification of the scam-bot message-relay service.

The definitions below are a shallow embedding of the Python sources:
  * `utils/conversation_formatter.py` (history parsing, JSON/XML documents)
  * `api/line_webhook.py` (webhook dispatcher, seen-event cache)
  * `services/conversation_service.py` (orchestrator, response composition)
  * `services/domain/detection/detection_service.py` and
    `services/domain/detection/local_detection.py` (detection layer)

Python floats are modelled as rationals; Python dicts with optional keys are
modelled as structures with `Option` fields; exceptions are modelled as
explicit error values.  Side effects (LINE replies, history appends) are
modelled as an explicit effect list.  The LINE client never raises (it
catches its own errors and returns booleans / empty dicts), so reply and
profile calls are modelled as total operations.
-/

namespace ScamBot

/-! ## Character classes used by `conversation_formatter._parse_message`

Python's `re` module with default Unicode semantics:
`\d` is a decimal digit, `\s` is whitespace, `\w` is a word character
(Unicode letters, digits, underscore).  We model `\w` over the scripts the
repository actually handles: ASCII alphanumerics, underscore, and the CJK
block U+4E00..U+9FA5 (the same block the source's explicit character class
uses).  `.` matches any character except a newline. -/

def isDigitCh (c : Char) : Bool := c.isDigit

def isSpaceCh (c : Char) : Bool :=
  c = ' ' || c = '\t' || c = '\n' || c = '\x0d' || c = '\x0b' || c = '\x0c'

def isCJK (c : Char) : Bool :=
  0x4e00 ≤ c.toNat && c.toNat ≤ 0x9fa5

def isWordCh (c : Char) : Bool :=
  c.isAlphanum || c = '_' || isCJK c

/-- The character class `[一-龥\w\s]` of the message regex. -/
def inSenderClass (c : Char) : Bool :=
  isCJK c || isWordCh c || isSpaceCh c

/-- Length of the maximal whitespace prefix (`\s*`). -/
def spaceRun (l : List Char) : Nat :=
  (l.takeWhile isSpaceCh).length

/-- Python `str.strip()` on the character list. -/
def stripChars (l : List Char) : List Char :=
  (l.dropWhile isSpaceCh).reverse.dropWhile isSpaceCh |>.reverse

def stripStr (s : String) : String :=
  String.mk (stripChars s.data)

/-! ## `conversation_formatter._parse_message`

Rule 1: `^(\d{4}\.\d{2}\.\d{2}\s+[一-龥]+)$` — a date marker line.
Rule 2: `^(\d{1,2}:\d{2})\s+([一-龥\w\s]+?)\s+(.+)$` — a message
line; group 2 is lazy, so the regex engine returns the match with the
maximal first whitespace run, then the shortest sender group, then the
maximal second whitespace run.  We reproduce that backtracking order
exactly with bounded searches.
Rule 3: any other line with non-blank strip is `unknown`; blank lines
yield no entry (the Python function returns an empty, falsy dict). -/

/-- Rule 1 of `_parse_message`: the date-marker regex, matched against the
whole line.  The capture group is the entire line. -/
def parseDateLine (s : String) : Option String :=
  match s.data with
  | a :: b :: c :: d :: p1 :: e :: f :: p2 :: g :: h :: rest =>
    if isDigitCh a && isDigitCh b && isDigitCh c && isDigitCh d &&
       p1 = '.' && isDigitCh e && isDigitCh f && p2 = '.' &&
       isDigitCh g && isDigitCh h then
      let k := spaceRun rest
      let tail := rest.drop k
      if 1 ≤ k && tail ≠ [] && tail.all isCJK then some s else none
    else none
  | _ => none

/-- The `\d{1,2}:\d{2}` time group: greedy, so two digits are preferred.
Returns the time text and the remaining characters. -/
def parseTimeGroup (l : List Char) : Option (String × List Char) :=
  match l with
  | a :: b :: c :: d :: e :: rest =>
    if isDigitCh a && isDigitCh b && c = ':' && isDigitCh d && isDigitCh e then
      some (String.mk [a, b, c, d, e], rest)
    else if isDigitCh a && b = ':' && isDigitCh c && isDigitCh d then
      some (String.mk [a, b, c, d], e :: rest)
    else none
  | [a, b, c, d] =>
    if isDigitCh a && b = ':' && isDigitCh c && isDigitCh d then
      some (String.mk [a, b, c, d], [])
    else none
  | _ => none

/-- `(.+)$` with `.` not matching newline: succeeds on a non-empty
newline-free remainder, greedily capturing all of it. -/
def dotPlusEnd (l : List Char) : Bool :=
  l ≠ [] && l.all (· ≠ '\n')

/-- For a fixed sender-group length `b`, try the trailing
`\s+(.+)$` with the second `\s+` greedy (longest run first).
Returns `(sender, content)` on success. -/
def trySenderLen (l : List Char) (b : Nat) : Option (String × String) :=
  let g2 := l.take b
  if g2.length = b && g2.all inSenderClass then
    let rest := l.drop b
    let m := spaceRun rest
    (List.range m).findSome? fun i =>
      let c := m - i
      let rem := rest.drop c
      if dotPlusEnd rem then some (String.mk g2, String.mk rem) else none
  else none

/-- The lazy group 2 `([一-龥\w\s]+?)`: shortest length first. -/
def lazySender (l : List Char) : Option (String × String) :=
  (List.range l.length).findSome? fun j => trySenderLen l (j + 1)

/-- After the time group: `\s+` (greedy, longest run first), then the lazy
sender group and the rest of the pattern. -/
def parseAfterTime (l : List Char) : Option (String × String) :=
  let m := spaceRun l
  (List.range m).findSome? fun i =>
    let a := m - i
    lazySender (l.drop a)

/-- Rule 2 of `_parse_message`: the message regex.  Returns raw
`(time, sender, content)` captures (stripping is applied by the caller,
as in the source). -/
def parseMsgLine (s : String) : Option (String × String × String) :=
  match parseTimeGroup s.data with
  | none => none
  | some (t, rest) =>
    match parseAfterTime rest with
    | none => none
    | some (snd, cnt) => some (t, snd, cnt)

/-- A parsed history entry (`_parse_message`'s non-empty result dict). -/
inductive Parsed where
  | dateMarker (date : String)
  | message (time sender content : String)
  | unknown (content : String)
deriving DecidableEq, Repr

/-- `conversation_formatter._parse_message`: rules applied in order, first
match wins; a blank line yields `none` (the empty dict). -/
def parse_message (s : String) : Option Parsed :=
  match parseDateLine s with
  | some d => some (Parsed.dateMarker d)
  | none =>
    match parseMsgLine s with
    | some (t, snd, cnt) =>
      some (Parsed.message t (stripStr snd) (stripStr cnt))
    | none =>
      let tr := stripStr s
      if tr = "" then none else some (Parsed.unknown tr)

/-! ## `format_history_as_json` and `format_history_as_xml`

Both serializers are modelled as the logical documents they emit.  The
`timestamp` metadata field is the injected clock value and carries no
logical content, so it is omitted from the documents.  The JSON serializer
keeps the dict produced by `_parse_message` (insertion order:`type` first);
the XML serializer emits per-entry sub-elements in the order
date, time, sender, content, type and skips the `current_user_id` element
when `user_id` is falsy. -/

/-- The field list of a parsed entry as the JSON dict stores it
(`_parse_message`'s insertion order). -/
def jsonEntryFields : Parsed → List (String × String)
  | Parsed.dateMarker d => [("type", "date_marker"), ("date", d)]
  | Parsed.message t snd c =>
      [("type", "message"), ("time", t), ("sender", snd), ("content", c)]
  | Parsed.unknown c => [("type", "unknown"), ("content", c)]

/-- The sub-element list of one `<message>` element as
`format_history_as_xml` emits it (source order: date, time, sender,
content, type; absent keys skipped). -/
def xmlEntryElems : Parsed → List (String × String)
  | Parsed.dateMarker d => [("date", d), ("type", "date_marker")]
  | Parsed.message t snd c =>
      [("time", t), ("sender", snd), ("content", c), ("type", "message")]
  | Parsed.unknown c => [("content", c), ("type", "unknown")]

/-- The logical content of the JSON document built by
`format_history_as_json`: the ordered parsed entries (falsy parses
skipped), `message_count = len(parsed_messages)`, and the user id as
given. -/
structure JsonDoc where
  conversation : List Parsed
  message_count : Nat
  current_user_id : Option String
deriving DecidableEq, Repr

/-- The logical content of the XML document built by
`format_history_as_xml`: `message_count = len(messages)` (the raw input
count), the `current_user_id` element only when the id is truthy, and one
`<message>` element per non-falsy parse. -/
structure XmlDoc where
  message_count : Nat
  current_user_id : Option String
  messages : List (List (String × String))
deriving DecidableEq, Repr

def format_history_as_json (messages : List String) (user_id : Option String) :
    JsonDoc :=
  let parsed_messages := messages.filterMap parse_message
  { conversation := parsed_messages
    message_count := parsed_messages.length
    current_user_id := user_id }

def format_history_as_xml (messages : List String) (user_id : Option String) :
    XmlDoc :=
  { message_count := messages.length
    current_user_id :=
      match user_id with
      | some u => if u = "" then none else some u
      | none => none
    messages := (messages.filterMap parse_message).map xmlEntryElems }

/-- `format_conversation`: dispatch on the requested format.  Returned as a
sum so that one function models the source's single entry point. -/
def format_conversation (messages : List String) (format_type : String)
    (user_id : Option String) : JsonDoc ⊕ XmlDoc :=
  if format_type.toLower = "xml" then
    Sum.inr (format_history_as_xml messages user_id)
  else Sum.inl (format_history_as_json messages user_id)

/-! ## Errors and effects

`utils/error_handler.py` is not in the source tree (only its importers
are), so the error classes are modelled from the spec: every application
error carries a message and an HTTP-class status code; validation failures
are 400-class, unhandled failures 500-class; wrapping an error in a new
`LineError`/`AppError` preserves the cause's status class. -/

/-- Modelled from the spec: an `AppError`/`LineError` from the missing
`utils/error_handler.py` — a message plus the HTTP-class status code of
the spec's error taxonomy (validation 400, unhandled 500). -/
structure AppErr where
  msg : String
  status : Nat
deriving DecidableEq, Repr

/-- `_process_event`'s trailing `except`: wrap the cause in a
`LineError("處理事件時發生錯誤: ...")`.  Modelled from the spec: the
wrapper preserves the cause's status class. -/
def wrapEventErr (e : AppErr) : AppErr :=
  { msg := "處理事件時發生錯誤: " ++ e.msg, status := e.status }

/-- `handle_webhook`'s trailing `except`: wrap the cause in a
`LineError("處理 webhook 時發生錯誤: ...")`.  Modelled from the spec: the
wrapper preserves the cause's status class. -/
def wrapWebhookErr (e : AppErr) : AppErr :=
  { msg := "處理 webhook 時發生錯誤: " ++ e.msg, status := e.status }

/-- An observable outbound side effect: a LINE reply call, or an append to
the per-user chat history store. -/
inductive Effect where
  | reply (token text : String)
  | append (user text : String)
deriving DecidableEq, Repr

/-- Mutable state crossing events: the module-level seen-event id set of
`LineWebhookHandler` and the history store.  Modelled from the spec: the
history store (`services/domain/storage_service.py` is not in the source
tree) is the append/read key-value interface the spec describes.  The
Python id set plus `set.pop()` is modelled as an insertion-ordered list
with oldest-first eviction — the spec fixes only the cap, not the eviction
order. -/
structure St where
  seen : List String
  hist : List (String × String)
deriving DecidableEq, Repr

def St.empty : St := { seen := [], hist := [] }

/-- `get_chat_history(user)`: the user's messages, in append order. -/
def getHist (st : St) (user : String) : List String :=
  (st.hist.filter fun p => p.1 = user).map fun p => p.2

/-- `_processed_event_ids.add(event_id)` followed by the cap check
`if len(...) > 1000: pop()` (lines 182–186 / 133–137 of
`api/line_webhook.py`).  CPython's `set.pop()` removes an *arbitrary*
member — in particular it may remove the id just added; the model fixes
one resolution (head removal).  Theorems that would be sensitive to this
choice carry a below-cap hypothesis under which the eviction branch is
never taken, so they hold for every resolution of `set.pop()`; only the
cap bound is stated for states at the cap. -/
def recordId (seen : List String) (id : String) : List String :=
  let s1 := if seen.contains id then seen else seen ++ [id]
  if s1.length > 1000 then s1.tail else s1

/-! ## Detection results -/

/-- The keyword sub-analysis dict of
`LocalDetectionStrategy._keyword_analysis`. -/
structure KwResult where
  found_keywords : List String
  keyword_count : Nat
  keyword_density : ℚ
  risk_score : ℚ
deriving DecidableEq, Repr

/-- The dict returned by the scam-detection agent collaborator
(`utils/agents` is external): optional `confidence`, `risk_level`,
`reply`. -/
structure AgentResult where
  confidence : Option ℚ
  risk_level : Option String
  reply : Option String
deriving DecidableEq, Repr

/-- A `DetectionResult` dict as consumed by `_generate_response`:
`reply`, `confidence` and `risk_level` with the dict-absent defaults
(`""`, `0`, `""`) already applied; `analysis` is the optional diagnostic
payload the local strategy attaches. -/
structure DetResult where
  label : String
  confidence : ℚ
  reply : String
  risk_level : String
  analysis : Option (KwResult × AgentResult)
deriving DecidableEq, Repr

/-- The exception taxonomy crossing the detection boundary:
`ValidationError`, `DetectionError`, or any other exception. -/
inductive DetErr where
  | validation (msg : String)
  | detection (msg : String)
  | failure (msg : String)
deriving DecidableEq, Repr

/-- A detection capability as the orchestrator sees it:
`analyze_message(message_text, user_id, chat_history, user_profile)`. -/
def DetectFn : Type :=
  String → String → List String → List (String × String) → Except DetErr DetResult

/-! ## `ConversationService._generate_response` -/

/-- Substring containment (Python's `in` on strings). -/
def containsSub (hay needle : String) : Bool :=
  (List.range (hay.data.length + 1)).any fun i =>
    (hay.data.drop i).take needle.data.length = needle.data

/-- Python `str.startswith` with a single-character needle. -/
def startsWithCh (s : String) (c : Char) : Bool :=
  match s.data with
  | [] => false
  | a :: _ => a = c

/-- The guard of the double-encoded-reply handling: the reply looks like a
JSON/dict literal containing a `reply` key. -/
def jsonReplyTrigger (s : String) : Bool :=
  (startsWithCh s '\x7b' || startsWithCh s '[') &&
    (containsSub s "\"reply\":" || containsSub s "\x27reply\x27:")

/-- Round-half-even to an integer, the rounding Python's `format` applies
to the decimal digit of a float. -/
def roundHalfEven (q : ℚ) : ℤ :=
  let f := ⌊q⌋
  let r := q - (f : ℚ)
  if r < 1 / 2 then f
  else if 1 / 2 < r then f + 1
  else if f % 2 = 0 then f else f + 1

/-- `f"{confidence * 100:.1f}"` for a confidence in `[0, 1]`, with the
float modelled as a rational. -/
def fmtPct (confidence : ℚ) : String :=
  let t := (roundHalfEven (confidence * 1000)).toNat
  toString (t / 10) ++ "." ++ toString (t % 10)

/-- The high-risk warning banner of `_generate_response` (line 221). -/
def warnBanner (confidence : ℚ) : String :=
  "[警示] 您可能正被詐騙，請提高警覺（可信度 " ++ fmtPct confidence ++ "%）"

/-- The medium-risk caution note of `_generate_response` (line 225). -/
def cautionNote (confidence : ℚ) : String :=
  "[提醒] 該訊息有一些可疑跡象，請保持警惕（可信度 " ++ fmtPct confidence ++ "%）"

/-- The default reply when the detection reply is empty (line 213). -/
def noScamReply : String := "我已分析了您的訊息，未發現明顯的詐騙跡象。"

/-- The reply text after the double-encoded-JSON handling and the
empty-reply default, before any banner.  `jx` is the `json.loads`-based
inner-reply extraction, an opaque Python-library behaviour taken as a
parameter; it is consulted only when the trigger guard fires. -/
def baseReply (jx : String → String) (r : DetResult) : String :=
  let reply1 := if jsonReplyTrigger r.reply then jx r.reply else r.reply
  if reply1 = "" then noScamReply else reply1

/-- `ConversationService._generate_response` (lines 180–231): compose the
outbound text from a detection result. -/
def generate_response (jx : String → String) (r : DetResult) : String :=
  let reply := baseReply jx r
  if r.risk_level = "高" ∧ r.confidence ≥ 6 / 10 then
    warnBanner r.confidence ++ "\n\n" ++ reply
  else if r.risk_level = "中" ∧ r.confidence ≥ 5 / 10 then
    cautionNote r.confidence ++ "\n\n" ++ reply
  else reply

/-! ## `ConversationService.process_message` and `process_event`

The LINE client's `reply_message` and `get_profile` catch their own
errors (returning `False` / `{}`), so they are modelled as total: a reply
call is an effect, a profile lookup is a pure function `gp`. -/

/-- The guidance reply sent on a detection `ValidationError` (line 154). -/
def invalidInputReply : String :=
  "輸入格式無效。請提供 LINE 對話響錄格式的內容，例如由 LINE 對話室匯出的消息歷史。"

/-- The degraded default detection result substituted when detection fails
with a non-validation error (lines 161–165). -/
def fallbackResult : DetResult :=
  { label := "unknown", confidence := 0
    reply := "很抱歉，我暫時無法處理您的訊息。請稍後再試。"
    risk_level := "", analysis := none }

/-- `ConversationService.process_message` (lines 119–177): append to
history, snapshot history and profile, run detection with the two-level
catch, compose and send the reply.  Returns the new state, the effects in
order, and the escaping error if any. -/
def process_message (detect : DetectFn) (gp : String → List (String × String))
    (jx : String → String) (st : St) (user_id message_text reply_token : String) :
    St × List Effect × Option AppErr :=
  let st1 : St := { st with hist := st.hist ++ [(user_id, message_text)] }
  let history := getHist st1 user_id
  let user_profile := gp user_id
  match detect message_text user_id history user_profile with
  | Except.error (DetErr.validation _) =>
      (st1, [Effect.append user_id message_text,
             Effect.reply reply_token invalidInputReply], none)
  | Except.error _ =>
      (st1, [Effect.append user_id message_text,
             Effect.reply reply_token (generate_response jx fallbackResult)], none)
  | Except.ok r =>
      (st1, [Effect.append user_id message_text,
             Effect.reply reply_token (generate_response jx r)], none)

/-- A LINE message payload dict: the keys the service reads. -/
structure LineMsg where
  mtype : Option String
  text : Option String
  mid : Option String
  fileName : Option String
deriving DecidableEq, Repr

/-- The generic apology `process_event` tries to send when the handling of
an event raises (line 110). -/
def processErrReply : String := "很抱歉，處理您的訊息時發生問題。請稍後再試。"

/-- Wrap an exception escaping `process_event`'s body in
`AppError("處理事件時發生錯誤: ...")` (line 116).  Modelled from the spec:
the wrapper preserves the cause's status class. -/
def wrapConvErr (e : AppErr) : AppErr :=
  { msg := "處理事件時發生錯誤: " ++ e.msg, status := e.status }

/-- `ConversationService.process_event` (lines 39–116): branch on the
message type; on an exception, best-effort send the generic apology and
re-raise wrapped. -/
def conv_process_event (detect : DetectFn) (gp : String → List (String × String))
    (jx : String → String) (st : St) (user_id reply_token : String)
    (message : LineMsg) : St × List Effect × Option AppErr :=
  match message.mtype with
  | some "text" =>
      match message.text with
      | none =>
          let e : AppErr := { msg := "文本訊息缺少 \x27text\x27 字段", status := 500 }
          (st, [Effect.reply reply_token processErrReply], some (wrapConvErr e))
      | some t => process_message detect gp jx st user_id t reply_token
  | some "image" =>
      match message.mid with
      | some i =>
          if i = "" then
            let e : AppErr := { msg := "圖片訊息缺少 \x27id\x27 字段", status := 500 }
            (st, [Effect.reply reply_token processErrReply], some (wrapConvErr e))
          else
            (st, [Effect.reply reply_token
              "我已收到您的圖片，但目前還無法分析圖片內容。請以文字方式提供您想要檢測的訊息。"],
              none)
      | none =>
          let e : AppErr := { msg := "圖片訊息缺少 \x27id\x27 字段", status := 500 }
          (st, [Effect.reply reply_token processErrReply], some (wrapConvErr e))
  | some "file" =>
      let name := message.fileName.getD "未知檔案"
      (st, [Effect.reply reply_token
        ("我已收到您的檔案 " ++ name ++
          "，但檔案處理功能尚未實現。請以文字方式提供您想要檢測的訊息。")], none)
  | _ =>
      (st, [Effect.reply reply_token
        "很抱歉，我無法處理這種類型的訊息。請以文字方式提供您想要檢測的訊息。"], none)

/-! ## `LineWebhookHandler` -/

/-- A webhook event dict: the keys `_process_event` reads.
`isRedelivery` is `event.get("deliveryContext", {}).get("isRedelivery",
False)` with its default already applied. -/
structure Event where
  webhookEventId : Option String
  isRedelivery : Bool
  etype : Option String
  sourceUserId : Option String
  replyToken : Option String
  message : Option LineMsg
deriving DecidableEq, Repr

/-- Python truthiness of the optional `event_id` string (`if event_id:`). -/
def idTruthy : Option String → Bool
  | some i => i ≠ ""
  | none => false

/-- The dedup guard `event_id and event_id in self._processed_event_ids`
(line 125). -/
def seenHit (seen : List String) : Option String → Bool
  | some i => i ≠ "" && seen.contains i
  | none => false

/-- Record the event id in the seen set when it is truthy (lines 132–137
and 181–186). -/
def recordIfTruthy (seen : List String) : Option String → List String
  | some i => if i ≠ "" then recordId seen i else seen
  | none => seen

/-- `LineWebhookHandler._process_event` (lines 110–201): dedup check, then
the redelivery branch (record id, validate, store text messages without
replying) or the fresh branch (validate, record id, forward to the
conversation service).  Any error escaping the body is wrapped by the
trailing `except` into a `LineError`. -/
def dispatch_event (detect : DetectFn) (gp : String → List (String × String))
    (jx : String → String) (st : St) (e : Event) :
    St × List Effect × Option AppErr :=
  if seenHit st.seen e.webhookEventId then (st, [], none)
  else if e.isRedelivery then
    let st1 : St := { st with seen := recordIfTruthy st.seen e.webhookEventId }
    match e.etype with
    | none => (st1, [], some (wrapEventErr ⟨"事件缺少 \x27type\x27 字段", 400⟩))
    | some t =>
      if t = "message" then
        match e.sourceUserId with
        | none =>
            (st1, [], some (wrapEventErr ⟨"事件來源缺少 \x27userId\x27 字段", 400⟩))
        | some u =>
          match e.message with
          | none =>
              -- `event["message"]` raises `KeyError` (line 151)
              (st1, [], some (wrapEventErr ⟨"\x27message\x27", 500⟩))
          | some m =>
            match m.mtype with
            | none =>
                -- `message['type']` in the log f-string raises (line 154)
                (st1, [], some (wrapEventErr ⟨"\x27type\x27", 500⟩))
            | some mt =>
              if mt = "text" then
                match m.text with
                | some txt =>
                    ({ st1 with hist := st1.hist ++ [(u, txt)] },
                     [Effect.append u txt], none)
                | none => (st1, [], none)
              else (st1, [], none)
      else (st1, [], none)
  else
    match e.etype with
    | none => (st, [], some (wrapEventErr ⟨"事件缺少 \x27type\x27 字段", 400⟩))
    | some t =>
      if t = "message" then
        match e.replyToken with
        | none =>
            (st, [], some (wrapEventErr ⟨"訊息事件缺少 \x27replyToken\x27 字段", 400⟩))
        | some tok =>
          match e.sourceUserId with
          | none =>
              (st, [], some (wrapEventErr ⟨"事件來源缺少 \x27userId\x27 字段", 400⟩))
          | some u =>
            match e.message with
            | none =>
                -- `event["message"]` raises `KeyError` (line 176)
                (st, [], some (wrapEventErr ⟨"\x27message\x27", 500⟩))
            | some m =>
              match m.mtype with
              | none =>
                  -- `message['type']` in the log f-string raises (line 179)
                  (st, [], some (wrapEventErr ⟨"\x27type\x27", 500⟩))
              | some _ =>
                let st1 : St := { st with
                  seen := recordIfTruthy st.seen e.webhookEventId }
                let r := conv_process_event detect gp jx st1 u tok m
                match r.2.2 with
                | none => (r.1, r.2.1, none)
                | some a => (r.1, r.2.1, some (wrapEventErr a))
      else (st, [], none)

/-- `LineWebhookHandler.handle_webhook` (lines 70–107) after JSON parsing:
process the events in order; an error raised by `_process_event`
propagates (there is no per-event catch in the loop), is wrapped by the
trailing `except`, and aborts the remaining events; otherwise the fixed
acknowledgment `"OK"` is returned. -/
def handle_webhook (detect : DetectFn) (gp : String → List (String × String))
    (jx : String → String) (st : St) (events : List Event) :
    St × List Effect × Except AppErr String :=
  match events with
  | [] => (st, [], Except.ok "OK")
  | e :: rest =>
    let r := dispatch_event detect gp jx st e
    match r.2.2 with
    | some a => (r.1, r.2.1, Except.error (wrapWebhookErr a))
    | none =>
      let rr := handle_webhook detect gp jx r.1 rest
      (rr.1, r.2.1 ++ rr.2.1, rr.2.2)

/-! ## Canonical detection layer (`services/domain/detection/`) -/

/-- A detection strategy's `analyze(message_text, user_id, chat_history,
user_profile)` signature (`services/domain/detection/base.py`). -/
def StrategyFn : Type :=
  String → Option String → Option (List String) →
    Option (List (String × String)) → Except DetErr DetResult

/-- `DetectionService.analyze_message`
(`services/domain/detection/detection_service.py`, lines 37–64): delegate
to the fixed strategy; `chat_history` is accepted but not forwarded — the
strategy is called with only `message_text`, `user_id` and `user_profile`
(line 59), so its `chat_history` parameter keeps its `None` default; the
`except` clause logs and re-raises unchanged. -/
def analyze_message (strategy : StrategyFn) (message_text : String)
    (user_id : Option String) (chat_history : Option (List String))
    (user_profile : Option (List (String × String))) : Except DetErr DetResult :=
  strategy message_text user_id none user_profile

/-! ### `LocalDetectionStrategy` -/

/-- Python boundary-position test for `\b` at position `i` of `t`:
exactly one side of the position is a word character. -/
def wordBoundaryAt (t : List Char) (i : Nat) : Bool :=
  let before := if h : 0 < i then isWordCh (t.getD (i - 1) ' ') && i - 1 < t.length
                else false
  let after := i < t.length && isWordCh (t.getD i ' ')
  before ≠ after

/-- Case-insensitive char equality (`re.IGNORECASE`, ASCII fold). -/
def chEqCI (a b : Char) : Bool := a.toLower = b.toLower

/-- `re.search(r'\b' + re.escape(keyword) + r'\b', text, re.IGNORECASE)`:
the escaped keyword occurs somewhere in the text with word boundaries on
both sides. -/
def keywordHit (text keyword : String) : Bool :=
  let t := text.data
  let k := keyword.data
  k ≠ [] &&
    (List.range (t.length + 1)).any fun i =>
      ((t.drop i).take k.length).length = k.length &&
      (((t.drop i).take k.length).zip k).all (fun p => chEqCI p.1 p.2) &&
      wordBoundaryAt t i && wordBoundaryAt t (i + k.length)

/-- `str.split()`: number of whitespace-separated words. -/
def wordCount (s : String) : Nat :=
  ((s.data.splitOnP isSpaceCh).filter fun w => w ≠ []).length

/-- `LocalDetectionStrategy._keyword_analysis` (lines 64–98). -/
def keyword_analysis (keywords : List String) (message_text : String) :
    KwResult :=
  let found := keywords.filter fun k => keywordHit message_text k
  let keyword_count := found.length
  let total_words := wordCount message_text
  let keyword_density := (keyword_count : ℚ) / (max total_words 1 : ℚ)
  let risk_score := min 1 ((keyword_count : ℚ) * (1 / 10) + keyword_density * 2)
  { found_keywords := found, keyword_count := keyword_count
    keyword_density := keyword_density, risk_score := risk_score }

/-- The default reply of the local strategy (line 162). -/
def localDefaultReply : String := "我已分析了您的訊息，未發現明顯的詐騙跡象。"

/-- `LocalDetectionStrategy.analyze` (lines 101–184), with the ADK agent
(`utils/agents`, an external collaborator) as a parameter consuming the
JSON-formatted conversation and the user id.  An empty `message_text`
raises `DetectionError` (400); with no chat history, the single current
message is used as the whole history; the returned dict has no
`risk_level` key, so its field is the dict-absent default `""`. -/
def local_analyze (keywords : List String)
    (agent : JsonDoc → Option String → AgentResult) (message_text : String)
    (user_id : Option String) (chat_history : Option (List String))
    (_user_profile : Option (List (String × String))) :
    Except DetErr DetResult :=
  if message_text = "" then
    Except.error (DetErr.detection "訊息文本必須是非空字串")
  else
    let history := match chat_history with
      | none => [message_text]
      | some h => if h = [] then [message_text] else h
    let keyword_result := keyword_analysis keywords message_text
    let formatted := format_history_as_json history user_id
    let agent_result := agent formatted user_id
    let combined_confidence :=
      keyword_result.risk_score * (4 / 10) +
        (agent_result.confidence.getD (5 / 10)) * (6 / 10)
    let risk_level := agent_result.risk_level.getD "低"
    let label :=
      if risk_level = "高" then "scam"
      else if risk_level = "中" then "suspicious"
      else "safe"
    let reply0 := agent_result.reply.getD localDefaultReply
    let reply := if label = "scam" then "[警告] 這可能是詐騙！\n\n" ++ reply0
                 else reply0
    Except.ok
      { label := label, confidence := combined_confidence, reply := reply
        risk_level := "", analysis := some (keyword_result, agent_result) }

/-! ## Concrete collaborators used to instantiate theorems -/

/-- A fixed benign detection result. -/
def safeResult : DetResult :=
  { label := "safe", confidence := 0, reply := "ok", risk_level := ""
    analysis := none }

/-- A detection capability that always succeeds with `safeResult`. -/
def detect0 : DetectFn := fun _ _ _ _ => Except.ok safeResult

/-- A profile lookup returning the empty profile (the LINE client's
behaviour on any non-200). -/
def gp0 : String → List (String × String) := fun _ => []

/-- A trivial double-encoded-reply extractor. -/
def jx0 : String → String := id

/-- A detection capability that always fails with a plain (non-validation)
error. -/
def detectFail : DetectFn := fun _ _ _ _ => Except.error (DetErr.failure "boom")

/-- The concrete detection result of the spec's response-composition
example. -/
def scamHighResult : DetResult :=
  { label := "scam", confidence := 41 / 50, reply := "hello", risk_level := "高"
    analysis := none }

/-- An event with a non-empty id and a non-`message` type: processed but
never recorded in the seen cache. -/
def evFollow : Event :=
  { webhookEventId := some "E1", isRedelivery := false, etype := some "follow"
    sourceUserId := none, replyToken := none, message := none }

/-- An event with no `type` key and no id. -/
def evNoType : Event :=
  { webhookEventId := none, isRedelivery := false, etype := none
    sourceUserId := none, replyToken := none, message := none }

/-- A well-formed fresh text-message event. -/
def evGoodText : Event :=
  { webhookEventId := none, isRedelivery := false, etype := some "message"
    sourceUserId := some "u1", replyToken := some "tok1"
    message := some { mtype := some "text", text := some "hi"
                      mid := none, fileName := none } }

/-- An event with no `type` key whose id is already in the seen cache. -/
def evSeenNoType : Event :=
  { webhookEventId := some "S1", isRedelivery := false, etype := none
    sourceUserId := none, replyToken := none, message := none }

/-- A redelivered text-message event. -/
def evRedeliveredText : Event :=
  { webhookEventId := some "R1", isRedelivery := true, etype := some "message"
    sourceUserId := some "u1", replyToken := none
    message := some { mtype := some "text", text := some "hello"
                      mid := none, fileName := none } }

/-! ## Helper lemmas -/

/-- A `filterMap` keeps the full length exactly when the function succeeds
on every element. -/
theorem length_filterMap_eq_full {α β : Type} (f : α → Option β) (l : List α) :
    (l.filterMap f).length = l.length ↔ ∀ a ∈ l, (f a).isSome := by
  induction l with
  | nil => simp
  | cons x xs ih =>
    cases hx : f x with
    | none =>
      have hle := List.length_filterMap_le f xs
      simp only [List.filterMap_cons, hx, List.length_cons, List.forall_mem_cons]
      constructor
      · intro h; omega
      · intro h; simp at h
    | some b =>
      simp only [List.filterMap_cons, hx, List.length_cons, List.forall_mem_cons,
        ih]
      simp [hx]

/-- The JSON dict of an entry and its XML element carry the same fields:
the XML order is the JSON order with the `type` field rotated to the
end. -/
theorem entry_fields_perm (p : Parsed) :
    (jsonEntryFields p).Perm (xmlEntryElems p) := by
  cases p <;> exact (List.perm_append_singleton _ _).symm

/-- `process_message` never touches the seen-event cache. -/
theorem process_message_seen (d : DetectFn) (g : String → List (String × String))
    (j : String → String) (st : St) (u t tok : String) :
    (process_message d g j st u t tok).1.seen = st.seen := by
  unfold process_message
  rcases hd : d t u (getHist { st with hist := st.hist ++ [(u, t)] } u) (g u)
    with e | r
  · cases e <;> simp [hd]
  · simp [hd]

/-- `ConversationService.process_event` never touches the seen-event
cache. -/
theorem conv_event_seen (d : DetectFn) (g : String → List (String × String))
    (j : String → String) (st : St) (u tok : String) (m : LineMsg) :
    (conv_process_event d g j st u tok m).1.seen = st.seen := by
  unfold conv_process_event
  repeat' split
  all_goals first | rfl | apply process_message_seen

/-- Recording an id preserves the 1000-element cap. -/
theorem recordId_length_le (s : List String) (i : String)
    (h : s.length ≤ 1000) : (recordId s i).length ≤ 1000 := by
  unfold recordId
  by_cases hc : s.contains i = true <;>
    simp only [hc, Bool.false_eq_true, if_true, if_false] <;>
    split_ifs with h2 <;>
    simp only [List.length_tail, List.length_append, List.length_cons,
      List.length_nil] at h2 ⊢ <;>
    omega

/-- Recording a fresh id into a below-cap cache is a plain append: the
size stays within the cap, so the `pop()` branch is never taken and the
result does not depend on which member `set.pop()` would remove. -/
theorem recordId_below_cap (s : List String) (i : String)
    (hcap : s.length < 1000) (h : s.contains i = false) :
    recordId s i = s ++ [i] := by
  unfold recordId
  simp only [h, Bool.false_eq_true, if_false]
  rw [if_neg]
  simp only [List.length_append, List.length_cons, List.length_nil]
  omega

/-- Conditional recording preserves the 1000-element cap. -/
theorem recordIfTruthy_length_le (s : List String) (o : Option String)
    (h : s.length ≤ 1000) : (recordIfTruthy s o).length ≤ 1000 := by
  cases o with
  | none => exact h
  | some i =>
    simp only [recordIfTruthy]
    split_ifs
    · exact recordId_length_le s i h
    · exact h

/-- One dispatched event preserves the 1000-element cap. -/
theorem dispatch_seen_le (d : DetectFn) (g : String → List (String × String))
    (j : String → String) (st : St) (e : Event) (h : st.seen.length ≤ 1000) :
    (dispatch_event d g j st e).1.seen.length ≤ 1000 := by
  unfold dispatch_event
  repeat' split
  all_goals try (dsimp only []; repeat' split)
  all_goals
    first
    | exact h
    | exact recordIfTruthy_length_le _ _ h
    | (rw [conv_event_seen]; exact recordIfTruthy_length_le _ _ h)

/-- A whole webhook batch preserves the 1000-element cap. -/
theorem webhook_seen_le (d : DetectFn) (g : String → List (String × String))
    (j : String → String) (events : List Event) (st : St)
    (h : st.seen.length ≤ 1000) :
    (handle_webhook d g j st events).1.seen.length ≤ 1000 := by
  induction events generalizing st with
  | nil => exact h
  | cons e rest ih =>
    unfold handle_webhook
    rcases hr : (dispatch_event d g j st e).2.2 with _ | a
    · simp only [hr]
      exact ih _ (dispatch_seen_le d g j st e h)
    · simp only [hr]
      exact dispatch_seen_le d g j st e h

/-- The spec's example confidence 0.82 renders as the percentage
string `82.0`. -/
theorem fmtPct_82 : fmtPct (41 / 50) = "82.0" := by
  unfold fmtPct roundHalfEven
  rw [show (41 : ℚ) / 50 * 1000 = 820 by norm_num]
  rw [show ⌊(820 : ℚ)⌋ = 820 by norm_num]
  norm_num
  rfl

/-- `"hello"` does not trigger the double-encoded-reply handling and is
non-empty, so it passes through the base-reply step unchanged. -/
theorem baseReply_hello (jx : String → String) :
    baseReply jx scamHighResult = "hello" := by
  unfold baseReply scamHighResult
  rw [show jsonReplyTrigger "hello" = false from by decide]
  simp

/-- The degraded default result composes to exactly its generic apology:
no banner is added (its `risk_level` is absent) and no extraction fires. -/
theorem generate_response_fallback (jx : String → String) :
    generate_response jx fallbackResult =
      "很抱歉，我暫時無法處理您的訊息。請稍後再試。" := by
  unfold generate_response baseReply fallbackResult
  rw [show jsonReplyTrigger "很抱歉，我暫時無法處理您的訊息。請稍後再試。" = false
    from by decide]
  simp only [Bool.false_eq_true, if_false]
  rw [if_neg (by decide : ¬("很抱歉，我暫時無法處理您的訊息。請稍後再試。" = ""))]
  rw [if_neg (fun h => absurd h.1 (by decide))]
  rw [if_neg (fun h => absurd h.1 (by decide))]

/-! ## C1 — dedup idempotence -/

/-- C1, counterexample: the claim says every event with a non-empty
`event_id` has its id recorded on first processing and is skipped at the
dedup check on redelivery.  A fresh non-`message` event (`type="follow"`,
id `E1`) is processed without error, yet its id is never recorded: the
fresh branch records the id only inside the `message` arm, so the second
delivery is not skipped at the dedup check. -/
theorem C1_counterexample :
    dispatch_event detect0 gp0 jx0 St.empty evFollow = (St.empty, [], none) ∧
    (dispatch_event detect0 gp0 jx0 St.empty evFollow).1.seen.contains "E1" =
      false :=
  ⟨rfl, rfl⟩

/-- C1, amended: for every event carrying a non-empty `event_id`,
processed while the seen-event cache is below its 1000-entry cap,
submitting the identical event twice performs the observable side effects
(reply calls, history appends) at most once — the second delivery
produces no side effects at all.  The id is recorded (and the dedup skip
engaged) only for redelivered events and for fresh `message` events that
pass validation; all other events repeat an effect-free pass instead of
being skipped.  The below-cap hypothesis is needed: below the cap,
recording the id is a plain append with no eviction, so the conclusion
holds for every resolution of the arbitrary `set.pop()`; at the cap,
`set.pop()` may remove the id that was just recorded, after which the
second delivery misses the dedup check and the suppression can genuinely
fail. -/
theorem C1_second_delivery_no_effects (d : DetectFn)
    (g : String → List (String × String)) (j : String → String) (st : St)
    (e : Event) (i : String) (hid : e.webhookEventId = some i)
    (hne : i ≠ "") (hcap : st.seen.length < 1000) :
    (dispatch_event d g j (dispatch_event d g j st e).1 e).2.1 = [] := by
  obtain ⟨eid, red, ety, src, tok, msg⟩ := e
  simp only [] at hid
  subst hid
  by_cases hs : st.seen.contains i = true
  · have hs' : i ∈ st.seen := by simpa using hs
    have hhit : seenHit st.seen (some i) = true := by simp [seenHit, hne, hs']
    have h1 : dispatch_event d g j st ⟨some i, red, ety, src, tok, msg⟩ =
        (st, [], none) := by
      unfold dispatch_event; simp [hhit]
    rw [h1]
    unfold dispatch_event; simp [hhit]
  · have hs' : i ∉ st.seen := by simpa using hs
    have hmiss : seenHit st.seen (some i) = false := by simp [seenHit, hs']
    have hskip : ∀ st' : St, st'.seen.contains i = true →
        (dispatch_event d g j st' ⟨some i, red, ety, src, tok, msg⟩).2.1 = [] := by
      intro st' hc
      have hc' : i ∈ st'.seen := by simpa using hc
      have hh : seenHit st'.seen (some i) = true := by simp [seenHit, hne, hc']
      unfold dispatch_event; simp [hh]
    have hrec : (recordIfTruthy st.seen (some i)).contains i = true := by
      simp only [recordIfTruthy, hne, if_true, ne_eq, not_false_eq_true]
      rw [recordId_below_cap st.seen i hcap (by simpa using hs)]
      simp
    cases red with
    | true =>
      apply hskip
      have hseen1 : (dispatch_event d g j st
          ⟨some i, true, ety, src, tok, msg⟩).1.seen =
          recordIfTruthy st.seen (some i) := by
        unfold dispatch_event
        simp only [hmiss, Bool.false_eq_true, if_false, if_true]
        repeat' split
        all_goals rfl
      rw [hseen1]; exact hrec
    | false =>
      cases ety with
      | none =>
        have h1 : dispatch_event d g j st ⟨some i, false, none, src, tok, msg⟩ =
            (st, [], some (wrapEventErr ⟨"事件缺少 \x27type\x27 字段", 400⟩)) := by
          unfold dispatch_event; simp [hmiss]
        rw [h1]
        unfold dispatch_event; simp [hmiss]
      | some t =>
        by_cases ht : t = "message"
        · subst ht
          cases tok with
          | none =>
            have h1 : dispatch_event d g j st
                ⟨some i, false, some "message", src, none, msg⟩ =
                (st, [],
                  some (wrapEventErr ⟨"訊息事件缺少 \x27replyToken\x27 字段", 400⟩)) := by
              unfold dispatch_event; simp [hmiss]
            rw [h1]
            unfold dispatch_event; simp [hmiss]
          | some tk =>
            cases src with
            | none =>
              have h1 : dispatch_event d g j st
                  ⟨some i, false, some "message", none, some tk, msg⟩ =
                  (st, [],
                    some (wrapEventErr ⟨"事件來源缺少 \x27userId\x27 字段", 400⟩)) := by
                unfold dispatch_event; simp [hmiss]
              rw [h1]
              unfold dispatch_event; simp [hmiss]
            | some u =>
              cases msg with
              | none =>
                have h1 : dispatch_event d g j st
                    ⟨some i, false, some "message", some u, some tk, none⟩ =
                    (st, [], some (wrapEventErr ⟨"\x27message\x27", 500⟩)) := by
                  unfold dispatch_event; simp [hmiss]
                rw [h1]
                unfold dispatch_event; simp [hmiss]
              | some m =>
                cases hmt : m.mtype with
                | none =>
                  have h1 : dispatch_event d g j st
                      ⟨some i, false, some "message", some u, some tk, some m⟩ =
                      (st, [], some (wrapEventErr ⟨"\x27type\x27", 500⟩)) := by
                    unfold dispatch_event; simp [hmiss, hmt]
                  rw [h1]
                  unfold dispatch_event; simp [hmiss, hmt]
                | some mt =>
                  apply hskip
                  have hseen1 : (dispatch_event d g j st
                      ⟨some i, false, some "message", some u, some tk,
                        some m⟩).1.seen =
                      recordIfTruthy st.seen (some i) := by
                    unfold dispatch_event
                    simp only [hmiss, Bool.false_eq_true, if_false, hmt]
                    rcases hc2 : (conv_process_event d g j
                        { seen := recordIfTruthy st.seen (some i),
                          hist := st.hist } u tk m).2.2 with _ | a <;>
                      simp [hc2] <;> rw [conv_event_seen]
                  rw [hseen1]; exact hrec
        · have h1 : dispatch_event d g j st
              ⟨some i, false, some t, src, tok, msg⟩ = (st, [], none) := by
            unfold dispatch_event; simp [hmiss, ht]
          rw [h1]
          unfold dispatch_event; simp [hmiss, ht]

/-- C1, witness: the follow event with id `E1`, delivered twice starting
from the empty (below-cap) cache, produces no effects on the second
delivery. -/
theorem C1_witness :
    (dispatch_event detect0 gp0 jx0
      (dispatch_event detect0 gp0 jx0 St.empty evFollow).1 evFollow).2.1 = [] :=
  C1_second_delivery_no_effects detect0 gp0 jx0 St.empty evFollow "E1" rfl
    (by decide) (by decide)

/-! ## C2 — batch isolation -/

/-- C2, counterexample: a batch whose first event lacks `type` followed by
a valid text-message event.  The per-event error propagates out of the
loop, is wrapped, and aborts the batch: `handle_webhook` raises a
`LineError` instead of returning `"OK"`, and the sibling event is never
processed (no effects at all). -/
theorem C2_counterexample :
    handle_webhook detect0 gp0 jx0 St.empty [evNoType, evGoodText] =
      (St.empty, [],
        Except.error
          { msg := "處理 webhook 時發生錯誤: 處理事件時發生錯誤: 事件缺少 \x27type\x27 字段"
            status := 400 }) :=
  rfl

/-- C2, amended: there is no per-event catch in the batch loop — when
processing an event raises, the error (wrapped by the handler's trailing
`except`) is the result of the whole batch: the remaining sibling events
are not attempted (the result does not depend on them and carries only
the failing prefix's effects), and `"OK"` is returned only when every
event processes without error. -/
theorem C2_error_aborts_batch (d : DetectFn)
    (g : String → List (String × String)) (j : String → String) (st : St)
    (e : Event) (rest : List Event) (a : AppErr)
    (h : (dispatch_event d g j st e).2.2 = some a) :
    handle_webhook d g j st (e :: rest) =
      ((dispatch_event d g j st e).1, (dispatch_event d g j st e).2.1,
        Except.error (wrapWebhookErr a)) := by
  unfold handle_webhook
  simp [h]

/-- C2, witness: the type-less event aborts a batch regardless of the
sibling list. -/
theorem C2_witness :
    handle_webhook detect0 gp0 jx0 St.empty [evNoType, evGoodText] =
      ((dispatch_event detect0 gp0 jx0 St.empty evNoType).1,
        (dispatch_event detect0 gp0 jx0 St.empty evNoType).2.1,
        Except.error
          (wrapWebhookErr (wrapEventErr ⟨"事件缺少 \x27type\x27 字段", 400⟩))) :=
  C2_error_aborts_batch detect0 gp0 jx0 St.empty evNoType [evGoodText]
    (wrapEventErr ⟨"事件缺少 \x27type\x27 字段", 400⟩) rfl

/-! ## C3 — validation completeness -/

/-- C3, counterexample: an event with no `type` field whose id `S1` is
already in the seen cache is skipped silently by the dedup check — no
validation error is raised, contradicting the claim's "regardless of
whether that id is already in the seen-event cache". -/
theorem C3_counterexample :
    dispatch_event detect0 gp0 jx0 { seen := ["S1"], hist := [] }
      evSeenNoType = ({ seen := ["S1"], hist := [] }, [], none) :=
  rfl

/-- C3, amended: an event with no `type` field fails with a
validation-class error (HTTP 400) before any detection or reply logic
(no effects, history untouched) — unless its `event_id` is non-empty and
already in the seen cache, in which case the dedup check (which runs
first) skips it silently. -/
theorem C3_missing_type_fails_unless_deduped (d : DetectFn)
    (g : String → List (String × String)) (j : String → String) (st : St)
    (e : Event) (hty : e.etype = none)
    (hfresh : seenHit st.seen e.webhookEventId = false) :
    (dispatch_event d g j st e).2.1 = [] ∧
    (dispatch_event d g j st e).2.2 =
      some (wrapEventErr { msg := "事件缺少 \x27type\x27 字段", status := 400 }) ∧
    (wrapEventErr { msg := "事件缺少 \x27type\x27 字段", status := 400 }).status =
      400 ∧
    (dispatch_event d g j st e).1.hist = st.hist := by
  unfold dispatch_event
  rw [hfresh, hty]
  cases hr : e.isRedelivery <;> simp [wrapEventErr]

/-- C3, witness: the fresh type-less event fails with the 400-class
error and produces no effects. -/
theorem C3_witness :
    (dispatch_event detect0 gp0 jx0 St.empty evNoType).2.1 = [] ∧
    (dispatch_event detect0 gp0 jx0 St.empty evNoType).2.2 =
      some (wrapEventErr { msg := "事件缺少 \x27type\x27 字段", status := 400 }) ∧
    (wrapEventErr { msg := "事件缺少 \x27type\x27 字段", status := 400 }).status =
      400 ∧
    (dispatch_event detect0 gp0 jx0 St.empty evNoType).1.hist = St.empty.hist :=
  C3_missing_type_fails_unless_deduped detect0 gp0 jx0 St.empty evNoType rfl rfl

/-! ## C4 — formatter round-trip -/

/-- C4, counterexample: the sender group of the message regex is lazy, so
on `"21:49 林國晴 Hina https://example.com"` it stops at the first
whitespace that lets the rest of the pattern match — the parse does NOT
yield sender `"林國晴 Hina"` with content `"https://example.com"` as the
claim states. -/
theorem C4_counterexample :
    parse_message "21:49 林國晴 Hina https://example.com" ≠
      some (Parsed.message "21:49" "林國晴 Hina" "https://example.com") := by
  decide

/-- C4, amended: parsing `"21:49 林國晴 Hina https://example.com"` yields
the message entry with time `"21:49"`, sender `"林國晴"` and content
`"Hina https://example.com"` (the lazy sender group captures up to the
first viable whitespace); parsing `"2025.04.22 星期二"` yields the date
marker `"2025.04.22 星期二"` as claimed. -/
theorem C4_formatter_parse :
    parse_message "21:49 林國晴 Hina https://example.com" =
      some (Parsed.message "21:49" "林國晴" "Hina https://example.com") ∧
    parse_message "2025.04.22 星期二" =
      some (Parsed.dateMarker "2025.04.22 星期二") := by
  decide

/-! ## C5 — cache bound -/

/-- C5: the seen-event cache never exceeds 1000 ids — if it is within the
cap before an event (or a whole batch), it is within the cap afterwards;
every insertion that pushes the size past the cap immediately evicts one
member.  Starting from the empty cache, inserting any number of distinct
ids (in particular 1001) therefore leaves at most 1000. -/
theorem C5_cache_bound (d : DetectFn) (g : String → List (String × String))
    (j : String → String) (st : St) (e : Event) (events : List Event)
    (h : st.seen.length ≤ 1000) :
    (dispatch_event d g j st e).1.seen.length ≤ 1000 ∧
    (handle_webhook d g j st events).1.seen.length ≤ 1000 :=
  ⟨dispatch_seen_le d g j st e h, webhook_seen_le d g j events st h⟩

/-- C5, witness: instantiated at the empty cache with a concrete event
and batch. -/
theorem C5_witness :
    (dispatch_event detect0 gp0 jx0 St.empty evFollow).1.seen.length ≤ 1000 ∧
    (handle_webhook detect0 gp0 jx0 St.empty
      [evRedeliveredText]).1.seen.length ≤ 1000 :=
  C5_cache_bound detect0 gp0 jx0 St.empty evFollow [evRedeliveredText]
    (by decide)

/-! ## C6 — fallback degradation -/

/-- C6: if detection raises any non-validation exception while
`process_message` handles a text message, the orchestrator substitutes
the default unknown-result, exactly one reply call is made carrying the
generic apology, and no exception escapes `process_message`. -/
theorem C6_fallback_degradation (detect : DetectFn)
    (gp : String → List (String × String)) (jx : String → String) (st : St)
    (u m tok : String) (ex : DetErr)
    (hex : ∀ s, ex ≠ DetErr.validation s)
    (hdet : ∀ h p, detect m u h p = Except.error ex) :
    process_message detect gp jx st u m tok =
      ({ st with hist := st.hist ++ [(u, m)] },
       [Effect.append u m,
        Effect.reply tok "很抱歉，我暫時無法處理您的訊息。請稍後再試。"], none) := by
  unfold process_message
  simp only [hdet]
  cases ex with
  | validation s => exact absurd rfl (hex s)
  | detection s => simp [generate_response_fallback jx]
  | failure s => simp [generate_response_fallback jx]

/-- C6, witness: a detection capability that always raises a plain error,
run on a concrete message. -/
theorem C6_witness :
    process_message detectFail gp0 jx0 St.empty "u1" "msg" "tok1" =
      ({ St.empty with hist := [("u1", "msg")] },
       [Effect.append "u1" "msg",
        Effect.reply "tok1" "很抱歉，我暫時無法處理您的訊息。請稍後再試。"], none) :=
  C6_fallback_degradation detectFail gp0 jx0 St.empty "u1" "msg" "tok1"
    (DetErr.failure "boom") (fun s h => DetErr.noConfusion h)
    (fun _ _ => rfl)

/-! ## C7 — response composition -/

/-- C7: the spec's example — label `scam`, risk `高`, confidence 0.82,
reply `hello` — composes to exactly the claimed banner-plus-reply string;
in general the warning banner is prepended exactly when
`risk_level = 高 ∧ confidence ≥ 0.6`, the caution note exactly when that
fails and `risk_level = 中 ∧ confidence ≥ 0.5`, and otherwise the reply is
the banner-free base reply. -/
theorem C7_response_composition (jx : String → String) (r : DetResult) :
    generate_response jx scamHighResult =
      "[警示] 您可能正被詐騙，請提高警覺（可信度 82.0%）\n\nhello" ∧
    (r.risk_level = "高" ∧ r.confidence ≥ 6 / 10 →
      generate_response jx r =
        warnBanner r.confidence ++ "\n\n" ++ baseReply jx r) ∧
    (¬(r.risk_level = "高" ∧ r.confidence ≥ 6 / 10) →
      r.risk_level = "中" ∧ r.confidence ≥ 5 / 10 →
      generate_response jx r =
        cautionNote r.confidence ++ "\n\n" ++ baseReply jx r) ∧
    (¬(r.risk_level = "高" ∧ r.confidence ≥ 6 / 10) →
      ¬(r.risk_level = "中" ∧ r.confidence ≥ 5 / 10) →
      generate_response jx r = baseReply jx r) := by
  refine ⟨?_, ?_, ?_, ?_⟩
  · unfold generate_response
    rw [if_pos ⟨(rfl : scamHighResult.risk_level = "高"),
      by norm_num [scamHighResult]⟩]
    rw [baseReply_hello]
    unfold warnBanner scamHighResult
    rw [show fmtPct (41 / 50) = "82.0" from fmtPct_82]
    rfl
  · intro h; simp [generate_response, h]
  · intro h1 h2; simp [generate_response, h1, h2]
  · intro h1 h2; simp [generate_response, h1, h2]

/-- C7, witness: the high-risk branch applied at the example result. -/
theorem C7_witness :
    generate_response jx0 scamHighResult =
      warnBanner scamHighResult.confidence ++ "\n\n" ++
        baseReply jx0 scamHighResult :=
  (C7_response_composition jx0 scamHighResult).2.1
    ⟨rfl, by norm_num [scamHighResult]⟩

/-! ## C8 — redelivery silence -/

/-- C8: a redelivered (`is_redelivery = true`) text-message event that is
not suppressed by the dedup check appends the message text to the
sender's history and produces no reply call (the redelivery branch has no
reply at all): the only effect is the history append. -/
theorem C8_redelivery_silence (d : DetectFn)
    (g : String → List (String × String)) (j : String → String) (st : St)
    (e : Event) (m : LineMsg) (u txt : String)
    (hred : e.isRedelivery = true) (hty : e.etype = some "message")
    (hsrc : e.sourceUserId = some u) (hmsg : e.message = some m)
    (hmt : m.mtype = some "text") (htxt : m.text = some txt)
    (hfresh : seenHit st.seen e.webhookEventId = false) :
    dispatch_event d g j st e =
      ({ seen := recordIfTruthy st.seen e.webhookEventId,
         hist := st.hist ++ [(u, txt)] }, [Effect.append u txt], none) := by
  unfold dispatch_event
  simp [hfresh, hred, hty, hsrc, hmsg, hmt, htxt]

/-- C8, witness: a concrete redelivered text event from the empty cache:
its id is recorded, the text is stored, and no reply is sent. -/
theorem C8_witness :
    dispatch_event detect0 gp0 jx0 St.empty evRedeliveredText =
      ({ seen := recordIfTruthy St.empty.seen evRedeliveredText.webhookEventId,
         hist := St.empty.hist ++ [("u1", "hello")] },
       [Effect.append "u1" "hello"], none) :=
  C8_redelivery_silence detect0 gp0 jx0 St.empty evRedeliveredText
    { mtype := some "text", text := some "hello", mid := none, fileName := none }
    "u1" "hello" rfl rfl rfl rfl rfl rfl rfl

/-! ## C9 — JSON/XML serialization equivalence -/

/-- C9, counterexample: on the single whitespace-only history line, the
JSON document's `message_count` is the parsed-entry count (0) while the
XML document's is the raw line count (1) — the two serializations do not
report the same metadata. -/
theorem C9_counterexample :
    (format_history_as_json ["   "] none).message_count ≠
      (format_history_as_xml ["   "] none).message_count := by
  decide

/-- C9, amended: both serializations are produced from the same ordered
parsed-entry list, and each entry's XML element carries exactly the same
fields as its JSON dict (the XML order moves `type` to the end); but the
reported `message_count`s differ — JSON counts parsed entries while XML
counts raw input lines — and they agree exactly when every raw line
yields an entry (no blank lines). -/
theorem C9_same_entries_count_divergence (messages : List String)
    (user_id : Option String) :
    (format_history_as_xml messages user_id).messages =
      (format_history_as_json messages user_id).conversation.map
        xmlEntryElems ∧
    (∀ p : Parsed, (jsonEntryFields p).Perm (xmlEntryElems p)) ∧
    ((format_history_as_json messages user_id).message_count =
        (format_history_as_xml messages user_id).message_count ↔
      ∀ m ∈ messages, (parse_message m).isSome) := by
  refine ⟨rfl, entry_fields_perm, ?_⟩
  exact length_filterMap_eq_full parse_message messages

/-- C9, witness: instantiated at a concrete two-line history. -/
theorem C9_witness :
    (format_history_as_xml ["21:49 林 hi", "x"] (some "u1")).messages =
      (format_history_as_json ["21:49 林 hi", "x"] (some "u1")).conversation.map
        xmlEntryElems ∧
    (∀ p : Parsed, (jsonEntryFields p).Perm (xmlEntryElems p)) ∧
    ((format_history_as_json ["21:49 林 hi", "x"] (some "u1")).message_count =
        (format_history_as_xml ["21:49 林 hi", "x"] (some "u1")).message_count ↔
      ∀ m ∈ ["21:49 林 hi", "x"], (parse_message m).isSome) :=
  C9_same_entries_count_divergence ["21:49 林 hi", "x"] (some "u1")

/-! ## C10 — history noninterference of the canonical detection service -/

/-- C10: `DetectionService.analyze_message` never forwards `chat_history`
to its strategy — two calls differing only in `chat_history` invoke the
strategy identically and return the same result; consequently the local
strategy, which substitutes the current message for an absent history,
always formats the singleton list containing only the current message as
the entire conversation history. -/
theorem C10_history_noninterference (strategy : StrategyFn)
    (kws : List String) (agent : JsonDoc → Option String → AgentResult)
    (t : String) (uid : Option String)
    (p : Option (List (String × String))) (h1 h2 : Option (List String)) :
    analyze_message strategy t uid h1 p = analyze_message strategy t uid h2 p ∧
    analyze_message (local_analyze kws agent) t uid h1 p =
      local_analyze kws agent t uid (some [t]) p := by
  refine ⟨rfl, ?_⟩
  unfold analyze_message local_analyze
  by_cases ht : t = ""
  · simp [ht]
  · simp [ht]

end ScamBot
